import Mathlib

/-!
Verification development for the data-refresh and stream-ingestion core of
the rotonda excerpt.  The definitions below are shallow embeddings of

  * src/roto_runtime/external_data.rs  (TTL cache, refresh scheduler, manager,
    typed accessors),
  * src/units/kafka_in/unit.rs         (retry/backoff policy, supervised
    consume task, run loop),
  * src/units/rib_unit/storage.rs      (storage-tier configuration).

Conventions of the embedding:
  * Rust `Instant` / `Duration` values are modelled as natural numbers in
    seconds; `Instant::elapsed` is truncated subtraction `now - fetched_at`.
  * Rust `f64` quantities (the backoff multiplier, the numeric payload of
    `ExternalDataValue::Number`) are modelled as rationals; the `as u64`
    narrowing cast of a nonnegative float is modelled as the integer floor.
  * `HashMap` is modelled as an association list with lookup/insert/erase
    helpers (`mapLookup`, `mapInsert`, `mapErase`); insert replaces any
    existing binding for the key (HashMap::insert semantics).
  * `f64::to_string` and `str::parse::<f64>` are abstracted as function
    parameters (`render`, `parse`) of the accessor definitions.
-/

/-- Association-list lookup, modelling `HashMap::get`. -/
def mapLookup {α : Type} (k : String) : List (String × α) → Option α
  | [] => none
  | (k', v) :: rest => if k' = k then some v else mapLookup k rest

/-- Association-list key removal, modelling `HashMap::remove`. -/
def mapErase {α : Type} (k : String) : List (String × α) → List (String × α)
  | [] => []
  | (k', v) :: rest =>
    if k' = k then mapErase k rest else (k', v) :: mapErase k rest

/-- Association-list insertion, modelling `HashMap::insert` (replaces any
existing binding for the key). -/
def mapInsert {α : Type} (k : String) (v : α) (l : List (String × α)) :
    List (String × α) :=
  (k, v) :: mapErase k l

/-- `ExternalDataValue` from external_data.rs: a tagged JSON-like value.
`Number(f64)` is modelled with a rational payload. -/
inductive ExternalDataValue where
  | string (s : String)
  | number (n : ℚ)
  | boolean (b : Bool)
  | array (items : List ExternalDataValue)
  | object (fields : List (String × ExternalDataValue))
  | null

/-- `HttpAuth` from external_data.rs. -/
inductive HttpAuth where
  | basic (username password : String)
  | bearer (token : String)
  | apiKey (header value : String)

/-- `HttpDataSource` from external_data.rs (`Url` modelled as `String`). -/
structure HttpDataSource where
  url : String
  method : String
  headers : List (String × String)
  body : Option String
  timeout_secs : ℕ
  content_type : Option String
  auth : Option HttpAuth

/-- `FileFormat` from external_data.rs. -/
inductive FileFormat where
  | json | yaml | toml | csv | text

/-- `FileDataSource` from external_data.rs (`PathBuf` modelled as `String`). -/
structure FileDataSource where
  path : String
  format : FileFormat
  watch : Bool

/-- `DatabaseDataSource` from external_data.rs. -/
structure DatabaseDataSource where
  connection_string : String
  query : String
  parameters : List (String × String)
  pool_size : ℕ

/-- `RedisDataSource` from external_data.rs. -/
structure RedisDataSource where
  url : String
  key : String
  command : String
  database : ℕ

/-- `RibQueryType` from external_data.rs (variant `Prefix` is rendered
`prefixQuery` here). -/
inductive RibQueryType where
  | prefixQuery | asn | community | custom

/-- `RibDataSource` from external_data.rs. -/
structure RibDataSource where
  rib_name : String
  query_type : RibQueryType
  parameters : List (String × String)

/-- `ExternalDataSourceType` from external_data.rs. -/
inductive ExternalDataSourceType where
  | http (cfg : HttpDataSource)
  | file (cfg : FileDataSource)
  | database (cfg : DatabaseDataSource)
  | redis (cfg : RedisDataSource)
  | rib (cfg : RibDataSource)

/-- `RetryConfig`: both external_data.rs and kafka_in/unit.rs declare this
structure with identical fields (their defaults differ, see the two default
values below).  The `f64` backoff multiplier is modelled as a rational. -/
structure RetryConfig where
  max_retries : ℕ
  initial_delay_ms : ℕ
  max_delay_ms : ℕ
  backoff_multiplier : ℚ

/-- `RetryConfig::default()` of external_data.rs. -/
def RetryConfig.externalDataDefault : RetryConfig :=
  { max_retries := 3, initial_delay_ms := 1000, max_delay_ms := 10000,
    backoff_multiplier := 2 }

/-- `RetryConfig::default()` of kafka_in/unit.rs. -/
def RetryConfig.kafkaDefault : RetryConfig :=
  { max_retries := 5, initial_delay_ms := 1000, max_delay_ms := 30000,
    backoff_multiplier := 2 }

/-- `ExternalDataSource` from external_data.rs. -/
structure ExternalDataSource where
  id : String
  source_type : ExternalDataSourceType
  refresh_interval_secs : ℕ
  cache_ttl_secs : ℕ
  auto_refresh : Bool
  retry_config : RetryConfig

/-- `CachedData` from external_data.rs; `fetched_at` is an `Instant`
modelled as seconds, `ttl` a `Duration` in seconds. -/
structure CachedData where
  value : ExternalDataValue
  fetched_at : ℕ
  ttl : ℕ

/-- `CachedData::is_expired`: `self.fetched_at.elapsed() > self.ttl`
with `elapsed = now - fetched_at` (truncated subtraction). -/
def CachedData.is_expired (now : ℕ) (c : CachedData) : Bool :=
  decide (c.ttl < now - c.fetched_at)

/-- State of `ExternalDataManager`: the source catalog and the shared cache
(the refresh channel's queue contents are returned by the operations as
explicit request lists). -/
structure ManagerState where
  sources : List (String × ExternalDataSource)
  cache : List (String × CachedData)

/-- `ExternalDataManager::add_source`: insert into the catalog and enqueue
one initial refresh request for the source id. -/
def add_source (st : ManagerState) (src : ExternalDataSource) :
    ManagerState × List String :=
  ({ st with sources := mapInsert src.id src st.sources }, [src.id])

/-- `ExternalDataManager::remove_source`: delete the catalog entry and evict
the cache entry for the id. -/
def remove_source (st : ManagerState) (source_id : String) : ManagerState :=
  { sources := mapErase source_id st.sources,
    cache := mapErase source_id st.cache }

/-- Second half of `get_data` (after the refresh request has been sent):
return the cached entry regardless of freshness, or `none`. -/
def staleFallback (st : ManagerState) (source_id : String)
    (sent : List String) : Option ExternalDataValue × List String :=
  match mapLookup source_id st.cache with
  | some cached => (some cached.value, sent)
  | none => (none, sent)

/-- `ExternalDataManager::get_data`: fresh cache hit returns immediately with
no request; otherwise one refresh request for the id is enqueued
(fire-and-forget) and the stale entry, if any, is returned.  The second
component is the list of refresh requests enqueued by the call. -/
def get_data (st : ManagerState) (source_id : String) (now : ℕ) :
    Option ExternalDataValue × List String :=
  match mapLookup source_id st.cache with
  | some cached =>
    if cached.is_expired now = false then (some cached.value, [])
    else staleFallback st source_id [source_id]
  | none => staleFallback st source_id [source_id]

/-- The placeholder object built by `ExternalDataManager::refresh_task` for a
dequeued source id (`ts` models the wall-clock unix timestamp inserted under
`"timestamp"`). -/
def placeholderValue (source_id : String) (ts : ℚ) : ExternalDataValue :=
  ExternalDataValue.object
    [("source_id", ExternalDataValue.string source_id),
     ("timestamp", ExternalDataValue.number ts),
     ("status", ExternalDataValue.string "active")]

/-- One iteration of `ExternalDataManager::refresh_task` for a dequeued
source id: unconditionally insert a placeholder entry with a fixed TTL of
300 seconds (`Duration::from_secs(300)`).  The task has no access to the
source catalog. -/
def refresh_process (cache : List (String × CachedData)) (source_id : String)
    (ts : ℚ) (now : ℕ) : List (String × CachedData) :=
  mapInsert source_id
    { value := placeholderValue source_id ts, fetched_at := now, ttl := 300 }
    cache

/-- The cache-affecting operations of the manager subsystem, for stating
cache-lifecycle invariants. -/
inductive ManagerOp where
  | addSource (src : ExternalDataSource)
  | removeSource (source_id : String)
  | getData (source_id : String) (now : ℕ)
  | refreshProcess (source_id : String) (ts : ℚ) (now : ℕ)

/-- Apply one manager operation to the state.  `get_data` takes `&self` in
the source, so its state component is the unchanged input state. -/
def applyOp (st : ManagerState) : ManagerOp → ManagerState
  | ManagerOp.addSource src => (add_source st src).1
  | ManagerOp.removeSource source_id => remove_source st source_id
  | ManagerOp.getData _ _ => st
  | ManagerOp.refreshProcess source_id ts now =>
    { st with cache := refresh_process st.cache source_id ts now }

/-- The backoff update of `start_consumer_task` (kafka_in/unit.rs):
`delay = min((delay_ms as f64 * backoff_multiplier) as u64, max_delay_ms)`,
with the nonnegative float-to-integer cast modelled as the floor. -/
def nextDelay (cfg : RetryConfig) (delay : ℕ) : ℕ :=
  min (Int.toNat ⌊(delay : ℚ) * cfg.backoff_multiplier⌋) cfg.max_delay_ms

/-- The value of the `delay` variable of `start_consumer_task` when the
(n+1)-th retry sleeps: initialised to `initial_delay_ms` and updated by
`nextDelay` after each slept retry. -/
def delayAt (cfg : RetryConfig) : ℕ → ℕ
  | 0 => cfg.initial_delay_ms
  | n + 1 => nextDelay cfg (delayAt cfg n)

/-- The delay formula as the specification states it (exact rational
arithmetic): `min(initial_delay * multiplier^n, max_delay)`. -/
def specDelay (cfg : RetryConfig) (n : ℕ) : ℚ :=
  min ((cfg.initial_delay_ms : ℚ) * cfg.backoff_multiplier ^ n)
    (cfg.max_delay_ms : ℚ)

/-- Why the consume task's retry loop stopped. -/
inductive StopReason where
  | success
  | exhausted
deriving DecidableEq

/-- The retry loop of `start_consumer_task` (kafka_in/unit.rs):
`ok n` is the outcome of the (n+1)-th call to `run_consumer`
(`true` = `Ok(())`).  On success the loop breaks; on failure it breaks when
`retry_count >= max_retries`, else increments `retry_count`, sleeps, and
retries.  Returns the total number of attempts made and the stop reason. -/
def consumeRun (cfg : RetryConfig) (ok : ℕ → Bool) (attemptNo retryCount : ℕ) :
    ℕ × StopReason :=
  if ok attemptNo then (attemptNo + 1, StopReason.success)
  else if cfg.max_retries ≤ retryCount then (attemptNo + 1, StopReason.exhausted)
  else consumeRun cfg ok (attemptNo + 1) (retryCount + 1)
termination_by cfg.max_retries - retryCount
decreasing_by
  omega

/-- The `Ok(status)` payloads of `gate.process()` in `KafkaInRunner::run`,
plus the `Err(Terminated)` case. -/
inductive GateEvent where
  | reconfiguring
  | reportLinks
  | otherStatus
  | terminated

/-- One wake-up of the `tokio::select!` in `KafkaInRunner::run`: either a
gate event or the consume task finishing (with its stop reason). -/
inductive LoopEvent where
  | gate (g : GateEvent)
  | consumerFinished (r : StopReason)

/-- What one iteration of the run loop does with the event. -/
inductive LoopStep where
  | continueLoop
  | exitTerminated
deriving DecidableEq

/-- The event dispatch of `KafkaInRunner::run`'s main loop: gate
`Err(Terminated)` and consume-task completion (for any reason) both return
`Err(Terminated)`; every `Ok` gate status is handled and the loop
continues. -/
def runStep : LoopEvent → LoopStep
  | LoopEvent.gate GateEvent.terminated => LoopStep.exitTerminated
  | LoopEvent.gate _ => LoopStep.continueLoop
  | LoopEvent.consumerFinished _ => LoopStep.exitTerminated

/-- `MemoryOnlyConfig` from the external rotonda-store crate, carrying no
data relevant to the excerpt; modelled as an opaque single-value record. -/
structure MemoryOnlyConfig where
deriving DecidableEq

/-- `MemoryOnlyConfig::default()`. -/
def MemoryOnlyConfig.defaultConfig : MemoryOnlyConfig := {}

/-- `rotonda_store::rib::config::Config` (external crate); only the
`MemoryOnly` constructor is ever built by this excerpt. -/
inductive RibConfig where
  | MemoryOnly (cfg : MemoryOnlyConfig)
deriving DecidableEq

/-- `SyncMode` from rib_unit/storage.rs. -/
inductive SyncMode where
  | noSync | normal | full

/-- `PlacementStrategy` from rib_unit/storage.rs. -/
inductive PlacementStrategy where
  | recentInMemory | frequentInMemory | peerBasedMemory | custom

/-- `DiskStorageConfig` from rib_unit/storage.rs (`PathBuf` as `String`). -/
structure DiskStorageConfig where
  path : String
  max_size_bytes : Option ℕ
  compression : Bool
  sync_mode : SyncMode
  cache_size : ℕ
  compaction_interval_secs : ℕ

/-- `HybridStorageConfig` from rib_unit/storage.rs. -/
structure HybridStorageConfig where
  disk : DiskStorageConfig
  memory : MemoryOnlyConfig
  placement_strategy : PlacementStrategy
  memory_threshold : ℕ
  auto_migration : Bool

/-- `StorageConfig` from rib_unit/storage.rs. -/
inductive StorageConfig where
  | Memory (cfg : MemoryOnlyConfig)
  | Disk (cfg : DiskStorageConfig)
  | Hybrid (cfg : HybridStorageConfig)

/-- `StorageConfig::to_rib_config`: Memory maps directly; Disk and Hybrid
fall back to the default memory-only backend (their backends are not
implemented). -/
def StorageConfig.to_rib_config : StorageConfig → RibConfig
  | StorageConfig.Memory cfg => RibConfig.MemoryOnly cfg
  | StorageConfig.Disk _ => RibConfig.MemoryOnly MemoryOnlyConfig.defaultConfig
  | StorageConfig.Hybrid _ => RibConfig.MemoryOnly MemoryOnlyConfig.defaultConfig

/-- `StorageConfig::is_persistent`: true exactly for Disk and Hybrid. -/
def StorageConfig.is_persistent : StorageConfig → Bool
  | StorageConfig.Memory _ => false
  | StorageConfig.Disk _ => true
  | StorageConfig.Hybrid _ => true

/-- `StorageConfig::storage_type`: the declared intent's name. -/
def StorageConfig.storage_type : StorageConfig → String
  | StorageConfig.Memory _ => "memory"
  | StorageConfig.Disk _ => "disk"
  | StorageConfig.Hybrid _ => "hybrid"

/-- The string match of `get_external_boolean` on the lowercased string
(external_data.rs): `"true" | "1" | "yes" | "on"` map to true,
`"false" | "0" | "no" | "off"` to false, anything else to absent. -/
def boolFromStr (s : String) : Option Bool :=
  if s.toLower = "true" ∨ s.toLower = "1" ∨ s.toLower = "yes" ∨ s.toLower = "on"
  then some true
  else if s.toLower = "false" ∨ s.toLower = "0" ∨ s.toLower = "no" ∨
    s.toLower = "off"
  then some false
  else none

/-- `bool::to_string()` of Rust. -/
def boolToString (b : Bool) : String := if b then "true" else "false"

/-- `ExternalDataAccess::get_external_string` layered over an arbitrary
implementation `get` of `get_external_data`; `render` abstracts
`f64::to_string`. -/
def get_external_string (render : ℚ → String)
    (get : String → Option ExternalDataValue) (source_id : String) :
    Option String :=
  match get source_id with
  | some (ExternalDataValue.string s) => some s
  | some (ExternalDataValue.number n) => some (render n)
  | some (ExternalDataValue.boolean b) => some (boolToString b)
  | some _ => none
  | none => none

/-- `ExternalDataAccess::get_external_number`; `parse` abstracts
`str::parse::<f64>` (`Ok` as `some`). -/
def get_external_number (parse : String → Option ℚ)
    (get : String → Option ExternalDataValue) (source_id : String) :
    Option ℚ :=
  match get source_id with
  | some (ExternalDataValue.number n) => some n
  | some (ExternalDataValue.string s) => parse s
  | some _ => none
  | none => none

/-- `ExternalDataAccess::get_external_boolean`. -/
def get_external_boolean (get : String → Option ExternalDataValue)
    (source_id : String) : Option Bool :=
  match get source_id with
  | some (ExternalDataValue.boolean b) => some b
  | some (ExternalDataValue.string s) => boolFromStr s
  | some (ExternalDataValue.number n) => some (decide (n ≠ 0))
  | some _ => none
  | none => none

theorem mapLookup_erase_self {α : Type} (k : String) (l : List (String × α)) :
    mapLookup k (mapErase k l) = none := by
  induction l with
  | nil => rfl
  | cons p rest ih =>
    by_cases h : p.1 = k
    · simpa [mapErase, h] using ih
    · simpa [mapErase, mapLookup, h] using ih

theorem mapLookup_erase_other {α : Type} (k k' : String) (l : List (String × α))
    (h : k' ≠ k) : mapLookup k' (mapErase k l) = mapLookup k' l := by
  have hk : ¬ (k = k') := fun hc => h hc.symm
  induction l with
  | nil => rfl
  | cons p rest ih =>
    by_cases hp : p.1 = k
    · have hpk : ¬ (p.1 = k') := by
        intro hc; exact h (hc ▸ hp)
      simp [mapErase, mapLookup, hp, hpk, hk, ih]
    · by_cases hq : p.1 = k'
      · simp [mapErase, mapLookup, hp, hq, h]
      · simp [mapErase, mapLookup, hp, hq, ih]

theorem mapLookup_insert_self {α : Type} (k : String) (v : α)
    (l : List (String × α)) : mapLookup k (mapInsert k v l) = some v := by
  simp [mapInsert, mapLookup]

theorem mapLookup_insert_other {α : Type} (k k' : String) (v : α)
    (l : List (String × α)) (h : k' ≠ k) :
    mapLookup k' (mapInsert k v l) = mapLookup k' l := by
  have hk : ¬ (k = k') := fun hc => h hc.symm
  simp only [mapInsert, mapLookup, hk, if_false]
  exact mapLookup_erase_other k k' l h

/-- C1: `get_data` follows the four-step read policy: a fresh cache entry is
returned with no refresh request; otherwise exactly one refresh request for
the id is enqueued and then the stale entry (if any) is returned, else
absent.  The return type is `Option`, so the caller observes only a present
value or absence, never an error. -/
theorem get_data_read_policy (st : ManagerState) (source_id : String)
    (now : ℕ) :
    (∀ c, mapLookup source_id st.cache = some c → c.is_expired now = false →
      get_data st source_id now = (some c.value, [])) ∧
    (∀ c, mapLookup source_id st.cache = some c → c.is_expired now = true →
      get_data st source_id now = (some c.value, [source_id])) ∧
    (mapLookup source_id st.cache = none →
      get_data st source_id now = (none, [source_id])) := by
  refine ⟨?_, ?_, ?_⟩
  · intro c hc hf
    simp [get_data, hc, hf]
  · intro c hc he
    simp [get_data, staleFallback, hc, he]
  · intro hc
    simp [get_data, staleFallback, hc]

theorem get_data_read_policy_witness :
    get_data ⟨[], [("s1", ⟨ExternalDataValue.null, 0, 10⟩)]⟩ "s1" 5 =
      (some ExternalDataValue.null, []) ∧
    get_data ⟨[], [("s1", ⟨ExternalDataValue.null, 0, 10⟩)]⟩ "s1" 20 =
      (some ExternalDataValue.null, ["s1"]) ∧
    get_data ⟨[], []⟩ "s2" 7 = (none, ["s2"]) :=
  ⟨(get_data_read_policy ⟨[], [("s1", ⟨ExternalDataValue.null, 0, 10⟩)]⟩
      "s1" 5).1 ⟨ExternalDataValue.null, 0, 10⟩ rfl rfl,
   (get_data_read_policy ⟨[], [("s1", ⟨ExternalDataValue.null, 0, 10⟩)]⟩
      "s1" 20).2.1 ⟨ExternalDataValue.null, 0, 10⟩ rfl rfl,
   (get_data_read_policy ⟨[], []⟩ "s2" 7).2.2 rfl⟩

/-- C7: `remove_source` deletes the catalog entry and evicts the cache entry
for the id, leaves every other catalog and cache entry unchanged, and a
subsequent `get_data` for the id returns absent (while enqueueing a refresh
request, per the read policy). -/
theorem remove_source_spec (st : ManagerState) (source_id other : String)
    (now : ℕ) (h : other ≠ source_id) :
    mapLookup source_id (remove_source st source_id).sources = none ∧
    mapLookup source_id (remove_source st source_id).cache = none ∧
    mapLookup other (remove_source st source_id).sources =
      mapLookup other st.sources ∧
    mapLookup other (remove_source st source_id).cache =
      mapLookup other st.cache ∧
    get_data (remove_source st source_id) source_id now =
      (none, [source_id]) := by
  refine ⟨mapLookup_erase_self _ _, mapLookup_erase_self _ _,
    mapLookup_erase_other _ _ _ h, mapLookup_erase_other _ _ _ h, ?_⟩
  have hc : mapLookup source_id (remove_source st source_id).cache = none :=
    mapLookup_erase_self _ _
  simp [get_data, staleFallback, hc]

theorem remove_source_spec_witness :
    mapLookup "s1" (remove_source
      ⟨[("s1", ⟨"s1", ExternalDataSourceType.file ⟨"d.json", FileFormat.json,
          true⟩, 300, 600, true, RetryConfig.externalDataDefault⟩)],
        [("s1", ⟨ExternalDataValue.null, 0, 10⟩),
         ("s2", ⟨ExternalDataValue.boolean true, 3, 20⟩)]⟩ "s1").sources =
      none ∧
    mapLookup "s1" (remove_source
      ⟨[("s1", ⟨"s1", ExternalDataSourceType.file ⟨"d.json", FileFormat.json,
          true⟩, 300, 600, true, RetryConfig.externalDataDefault⟩)],
        [("s1", ⟨ExternalDataValue.null, 0, 10⟩),
         ("s2", ⟨ExternalDataValue.boolean true, 3, 20⟩)]⟩ "s1").cache =
      none ∧
    mapLookup "s2" (remove_source
      ⟨[("s1", ⟨"s1", ExternalDataSourceType.file ⟨"d.json", FileFormat.json,
          true⟩, 300, 600, true, RetryConfig.externalDataDefault⟩)],
        [("s1", ⟨ExternalDataValue.null, 0, 10⟩),
         ("s2", ⟨ExternalDataValue.boolean true, 3, 20⟩)]⟩ "s1").sources =
      mapLookup "s2" [("s1", ⟨"s1", ExternalDataSourceType.file ⟨"d.json",
        FileFormat.json, true⟩, 300, 600, true,
        RetryConfig.externalDataDefault⟩)] ∧
    mapLookup "s2" (remove_source
      ⟨[("s1", ⟨"s1", ExternalDataSourceType.file ⟨"d.json", FileFormat.json,
          true⟩, 300, 600, true, RetryConfig.externalDataDefault⟩)],
        [("s1", ⟨ExternalDataValue.null, 0, 10⟩),
         ("s2", ⟨ExternalDataValue.boolean true, 3, 20⟩)]⟩ "s1").cache =
      mapLookup "s2" [("s1", ⟨ExternalDataValue.null, 0, 10⟩),
        ("s2", ⟨ExternalDataValue.boolean true, 3, 20⟩)] ∧
    get_data (remove_source
      ⟨[("s1", ⟨"s1", ExternalDataSourceType.file ⟨"d.json", FileFormat.json,
          true⟩, 300, 600, true, RetryConfig.externalDataDefault⟩)],
        [("s1", ⟨ExternalDataValue.null, 0, 10⟩),
         ("s2", ⟨ExternalDataValue.boolean true, 3, 20⟩)]⟩ "s1") "s1" 5 =
      (none, ["s1"]) :=
  remove_source_spec _ "s1" "s2" 5 (by simp)

/-- C8: `is_expired` holds exactly when the entry's age strictly exceeds its
TTL (age equal to TTL is still fresh); `get_data` leaves the cache
unchanged; and an entry disappears from the cache only through
`remove_source` of its own id — no operation removes an entry merely for
being expired. -/
theorem cache_expiry_policy (st : ManagerState) (op : ManagerOp)
    (source_id : String) (now : ℕ) (c : CachedData) :
    (c.is_expired now = true ↔ c.ttl < now - c.fetched_at) ∧
    (now - c.fetched_at = c.ttl → c.is_expired now = false) ∧
    (applyOp st (ManagerOp.getData source_id now)).cache = st.cache ∧
    (mapLookup source_id st.cache ≠ none →
      mapLookup source_id (applyOp st op).cache = none →
      op = ManagerOp.removeSource source_id) := by
  refine ⟨by simp [CachedData.is_expired], ?_, rfl, ?_⟩
  · intro hEq
    simp [CachedData.is_expired, hEq]
  · intro hpre hpost
    cases op with
    | addSource src =>
      exact absurd hpost hpre
    | removeSource j =>
      by_cases hj : j = source_id
      · rw [hj]
      · have hsym : source_id ≠ j := fun hc => hj hc.symm
        have := mapLookup_erase_other j source_id st.cache hsym
        exact absurd (this ▸ hpost) hpre
    | getData j m =>
      exact absurd hpost hpre
    | refreshProcess j ts m =>
      by_cases hj : j = source_id
      · subst hj
        have := mapLookup_insert_self j
          ({ value := placeholderValue j ts, fetched_at := m, ttl := 300 } :
            CachedData) st.cache
        simp only [applyOp, refresh_process] at hpost
        rw [this] at hpost
        cases hpost
      · have hsym : source_id ≠ j := fun hc => hj hc.symm
        have := mapLookup_insert_other j source_id
          ({ value := placeholderValue j ts, fetched_at := m, ttl := 300 } :
            CachedData) st.cache hsym
        simp only [applyOp, refresh_process] at hpost
        rw [this] at hpost
        exact absurd hpost hpre

theorem cache_expiry_policy_witness :
    (⟨ExternalDataValue.null, 0, 10⟩ : CachedData).is_expired 10 = false ∧
    ManagerOp.removeSource "a" = ManagerOp.removeSource "a" :=
  ⟨(cache_expiry_policy ⟨[], [("a", ⟨ExternalDataValue.null, 0, 10⟩)]⟩
      (ManagerOp.removeSource "a") "a" 10
      ⟨ExternalDataValue.null, 0, 10⟩).2.1 rfl,
   (cache_expiry_policy ⟨[], [("a", ⟨ExternalDataValue.null, 0, 10⟩)]⟩
      (ManagerOp.removeSource "a") "a" 10
      ⟨ExternalDataValue.null, 0, 10⟩).2.2.2
     (by simp [mapLookup]) (by simp [applyOp, remove_source, mapErase,
        mapLookup])⟩

/-- C9: the refresh task handles any dequeued identifier — registered or
not — by unconditionally inserting a placeholder cache entry with a fixed
TTL of 300 seconds; it consults neither the catalog (which it cannot even
access) nor the source's configured `cache_ttl_secs`.  Consequently
`get_data` on an unknown or removed identifier returns absent but enqueues
a request whose processing makes a cache entry for it (re)appear. -/
theorem refresh_task_fixed_ttl (st : ManagerState) (source_id : String)
    (ts : ℚ) (now : ℕ) :
    mapLookup source_id (refresh_process st.cache source_id ts now) =
      some ⟨placeholderValue source_id ts, now, 300⟩ ∧
    (mapLookup source_id st.cache = none →
      get_data st source_id now = (none, [source_id]) ∧
      mapLookup source_id (refresh_process st.cache source_id ts now) ≠
        none) := by
  constructor
  · exact mapLookup_insert_self _ _ _
  · intro hnone
    constructor
    · simp [get_data, staleFallback, hnone]
    · rw [refresh_process, mapLookup_insert_self]
      simp

theorem refresh_task_fixed_ttl_witness :
    mapLookup "gone" (refresh_process [] "gone" 7 2) =
      some ⟨placeholderValue "gone" 7, 2, 300⟩ ∧
    get_data ⟨[], []⟩ "gone" 2 = (none, ["gone"]) ∧
    mapLookup "gone" (refresh_process [] "gone" 7 2) ≠ none :=
  ⟨(refresh_task_fixed_ttl ⟨[], []⟩ "gone" 7 2).1,
   ((refresh_task_fixed_ttl ⟨[], []⟩ "gone" 7 2).2 rfl).1,
   ((refresh_task_fixed_ttl ⟨[], []⟩ "gone" 7 2).2 rfl).2⟩

theorem le_toNat_floor_mul (d : ℕ) (m : ℚ) (hm : 1 ≤ m) :
    d ≤ Int.toNat ⌊(d : ℚ) * m⌋ := by
  have h1 : (d : ℚ) ≤ (d : ℚ) * m := le_mul_of_one_le_right (by positivity) hm
  have h2 : (d : ℤ) ≤ ⌊(d : ℚ) * m⌋ := by
    rw [Int.le_floor]
    push_cast
    exact h1
  omega

/-- C2 counterexample: with initial_delay_ms = 50000, max_delay_ms = 30000
and multiplier 2 (≥ 1), the first retry sleeps the uncapped initial delay
50000 ms, while the specification's formula
`min(initial_delay * multiplier^0, max_delay)` yields 30000 ms; the slept
delay also exceeds max_delay. -/
theorem next_delay_formula_counterexample :
    (1 : ℚ) ≤ (⟨3, 50000, 30000, 2⟩ : RetryConfig).backoff_multiplier ∧
    ((delayAt ⟨3, 50000, 30000, 2⟩ 0 : ℚ) ≠ specDelay ⟨3, 50000, 30000, 2⟩ 0) ∧
    ¬ (delayAt ⟨3, 50000, 30000, 2⟩ 0 ≤
        (⟨3, 50000, 30000, 2⟩ : RetryConfig).max_delay_ms) := by
  refine ⟨by norm_num, ?_, by decide⟩
  norm_num [delayAt, specDelay]

/-- C2 amended: the first retry sleeps exactly `initial_delay_ms` (uncapped);
each later delay is `min(floor(previous * multiplier), max_delay_ms)`.
Whenever the multiplier is ≥ 1 and the initial delay does not exceed the
maximum delay, the delay sequence is monotonically non-decreasing and never
exceeds max_delay_ms. -/
theorem delay_monotone_capped (cfg : RetryConfig)
    (hm : 1 ≤ cfg.backoff_multiplier)
    (hi : cfg.initial_delay_ms ≤ cfg.max_delay_ms) (n : ℕ) :
    delayAt cfg n ≤ delayAt cfg (n + 1) ∧
    delayAt cfg n ≤ cfg.max_delay_ms := by
  induction n with
  | zero =>
    constructor
    · show cfg.initial_delay_ms ≤ nextDelay cfg cfg.initial_delay_ms
      rw [nextDelay]
      exact le_min (le_toNat_floor_mul _ _ hm) hi
    · exact hi
  | succ n ih =>
    obtain ⟨_, ihb⟩ := ih
    have hb1 : delayAt cfg (n + 1) ≤ cfg.max_delay_ms := by
      show nextDelay cfg (delayAt cfg n) ≤ cfg.max_delay_ms
      rw [nextDelay]
      exact min_le_right _ _
    refine ⟨?_, hb1⟩
    show delayAt cfg (n + 1) ≤ nextDelay cfg (delayAt cfg (n + 1))
    rw [nextDelay]
    exact le_min (le_toNat_floor_mul _ _ hm) hb1

theorem delay_monotone_capped_witness :
    delayAt RetryConfig.kafkaDefault 0 ≤ delayAt RetryConfig.kafkaDefault 1 ∧
    delayAt RetryConfig.kafkaDefault 0 ≤
      RetryConfig.kafkaDefault.max_delay_ms :=
  delay_monotone_capped RetryConfig.kafkaDefault
    (by norm_num [RetryConfig.kafkaDefault])
    (by norm_num [RetryConfig.kafkaDefault]) 0

theorem consumeRun_all_fail (cfg : RetryConfig) (ok : ℕ → Bool)
    (hf : ∀ n, ok n = false) (k : ℕ) :
    ∀ r a, cfg.max_retries - r = k →
      consumeRun cfg ok a r = (a + k + 1, StopReason.exhausted) := by
  induction k with
  | zero =>
    intro r a hk
    have hle : cfg.max_retries ≤ r := by omega
    rw [consumeRun]
    simp [hf a, hle]
  | succ k ih =>
    intro r a hk
    have hlt : ¬ (cfg.max_retries ≤ r) := by omega
    rw [consumeRun]
    simp only [hf a, Bool.false_eq_true, if_false, hlt]
    rw [ih (r + 1) (a + 1) (by omega)]
    have harith : a + 1 + k + 1 = a + (k + 1) + 1 := by omega
    rw [harith]

/-- C3: when every consume cycle fails and max_retries = 3, the consume task
makes exactly 4 attempts (1 initial + 3 retries), then stops with its retry
budget exhausted — no 5th attempt occurs — and the run loop reacts to the
finished task by exiting with `Terminated`. -/
theorem consume_retry_budget (cfg : RetryConfig) (ok : ℕ → Bool)
    (h3 : cfg.max_retries = 3) (hf : ∀ n, ok n = false) :
    consumeRun cfg ok 0 0 = (4, StopReason.exhausted) ∧
    runStep (LoopEvent.consumerFinished StopReason.exhausted) =
      LoopStep.exitTerminated := by
  constructor
  · rw [consumeRun_all_fail cfg ok hf (cfg.max_retries - 0) 0 0 rfl, h3]
  · rfl

theorem consume_retry_budget_witness :
    consumeRun ⟨3, 1000, 30000, 2⟩ (fun _ => false) 0 0 =
      (4, StopReason.exhausted) ∧
    runStep (LoopEvent.consumerFinished StopReason.exhausted) =
      LoopStep.exitTerminated :=
  consume_retry_budget ⟨3, 1000, 30000, 2⟩ (fun _ => false) rfl
    (fun _ => rfl)

/-- C4 counterexample: with a consume cycle that succeeds on the first
attempt (and would fail on any later one), the consume task stops
immediately with reason `success` after a single attempt — it does not
continue running (the restart loop of `start_consumer_task` has no stop
input at all; it exits by itself on success), and no later cycle ever runs,
so no retry counter is available to a later failure. -/
theorem consume_success_continue_counterexample :
    consumeRun ⟨3, 1000, 30000, 2⟩ (fun n => decide (n = 0)) 0 0 =
      (1, StopReason.success) := by
  rw [consumeRun]
  simp

/-- C4 amended: when a consume cycle completes cleanly, the consume task
breaks out of its restart loop immediately (total attempts = index of the
successful attempt + 1, stop reason `success`), for any retry counter
value; the retry counter is never reset because the loop ends — the task's
completion is then handled by the run loop. -/
theorem consume_success_stops (cfg : RetryConfig) (ok : ℕ → Bool)
    (a r : ℕ) (h : ok a = true) :
    consumeRun cfg ok a r = (a + 1, StopReason.success) := by
  rw [consumeRun]
  simp [h]

theorem consume_success_stops_witness :
    consumeRun ⟨3, 1000, 30000, 2⟩ (fun _ => true) 0 5 =
      (1, StopReason.success) :=
  consume_success_stops ⟨3, 1000, 30000, 2⟩ (fun _ => true) 0 5 rfl

/-- C10: whenever the consume task finishes — with a success or with its
retry budget exhausted — the run loop of the stream-ingestion unit exits
with `Terminated`; it never continues running, and the two finish reasons
are indistinguishable at the run-loop boundary. -/
theorem run_loop_exit_on_consumer_finish :
    (∀ r, runStep (LoopEvent.consumerFinished r) = LoopStep.exitTerminated) ∧
    runStep (LoopEvent.consumerFinished StopReason.success) =
      runStep (LoopEvent.consumerFinished StopReason.exhausted) ∧
    (∀ r, runStep (LoopEvent.consumerFinished r) ≠ LoopStep.continueLoop) := by
  refine ⟨fun r => by cases r <;> rfl, rfl, fun r => by cases r <;> simp [runStep]⟩

/-- C5: `is_persistent` is true exactly for the Disk and Hybrid intents;
Disk and Hybrid resolve to the same memory-only runtime backend that the
(default) Memory intent resolves to, while `storage_type` still reports the
declared intent, so degraded persistence is detectable. -/
theorem storage_intent_resolution :
    (∀ sc : StorageConfig, sc.is_persistent = true ↔
      ∀ m, sc ≠ StorageConfig.Memory m) ∧
    (∀ d, (StorageConfig.Disk d).to_rib_config =
        (StorageConfig.Memory MemoryOnlyConfig.defaultConfig).to_rib_config ∧
      (StorageConfig.Disk d).storage_type = "disk" ∧
      (StorageConfig.Disk d).is_persistent = true) ∧
    (∀ hc, (StorageConfig.Hybrid hc).to_rib_config =
        (StorageConfig.Memory MemoryOnlyConfig.defaultConfig).to_rib_config ∧
      (StorageConfig.Hybrid hc).storage_type = "hybrid" ∧
      (StorageConfig.Hybrid hc).is_persistent = true) ∧
    (∀ m, (StorageConfig.Memory m).is_persistent = false ∧
      (StorageConfig.Memory m).storage_type = "memory" ∧
      (StorageConfig.Memory m).to_rib_config = RibConfig.MemoryOnly m) := by
  refine ⟨?_, fun d => ⟨rfl, rfl, rfl⟩, fun hc => ⟨rfl, rfl, rfl⟩,
    fun m => ⟨rfl, rfl, rfl⟩⟩
  intro sc
  cases sc with
  | Memory m =>
    simp only [StorageConfig.is_persistent]
    constructor
    · intro h
      exact absurd h (by simp)
    · intro hall
      exact absurd rfl (hall m)
  | Disk d =>
    simp only [StorageConfig.is_persistent]
    constructor
    · intro _ m hEq
      exact StorageConfig.noConfusion hEq
    · intro _
      trivial
  | Hybrid hc =>
    simp only [StorageConfig.is_persistent]
    constructor
    · intro _ m hEq
      exact StorageConfig.noConfusion hEq
    · intro _
      trivial

theorem boolFromStr_true_iff (s : String) :
    boolFromStr s = some true ↔
      (s.toLower = "true" ∨ s.toLower = "1" ∨ s.toLower = "yes" ∨
        s.toLower = "on") := by
  by_cases hA : s.toLower = "true" ∨ s.toLower = "1" ∨ s.toLower = "yes" ∨
      s.toLower = "on"
  · simp [boolFromStr, hA]
  · by_cases hB : s.toLower = "false" ∨ s.toLower = "0" ∨ s.toLower = "no" ∨
        s.toLower = "off"
    · simp [boolFromStr, hA, hB]
    · simp [boolFromStr, hA, hB]

theorem boolFromStr_false_iff (s : String) :
    boolFromStr s = some false ↔
      (s.toLower = "false" ∨ s.toLower = "0" ∨ s.toLower = "no" ∨
        s.toLower = "off") := by
  by_cases hA : s.toLower = "true" ∨ s.toLower = "1" ∨ s.toLower = "yes" ∨
      s.toLower = "on"
  · have hnB : ¬ (s.toLower = "false" ∨ s.toLower = "0" ∨ s.toLower = "no" ∨
        s.toLower = "off") := by
      rcases hA with h | h | h | h <;> rw [h] <;> decide
    simp [boolFromStr, hA, hnB]
  · by_cases hB : s.toLower = "false" ∨ s.toLower = "0" ∨ s.toLower = "no" ∨
        s.toLower = "off"
    · simp [boolFromStr, hA, hB]
    · simp [boolFromStr, hA, hB]

/-- C6: the typed accessors coerce per variant exactly as specified: the
number accessor returns a number unchanged, parses a string (parse failure
gives absent), else absent; the boolean accessor returns a boolean
unchanged, matches the lowercased string against the fixed word sets, and
maps a number to (number ≠ 0); the string accessor returns a string
unchanged and the textual form of a number or boolean; object, array and
null values give absent from every scalar accessor. -/
theorem typed_accessor_coercion (render : ℚ → String)
    (parse : String → Option ℚ) (get : String → Option ExternalDataValue)
    (source_id : String) :
    (∀ n, get source_id = some (ExternalDataValue.number n) →
      get_external_number parse get source_id = some n ∧
      get_external_boolean get source_id = some (decide (n ≠ 0)) ∧
      get_external_string render get source_id = some (render n)) ∧
    (∀ s, get source_id = some (ExternalDataValue.string s) →
      get_external_number parse get source_id = parse s ∧
      get_external_boolean get source_id = boolFromStr s ∧
      (boolFromStr s = some true ↔
        (s.toLower = "true" ∨ s.toLower = "1" ∨ s.toLower = "yes" ∨
          s.toLower = "on")) ∧
      (boolFromStr s = some false ↔
        (s.toLower = "false" ∨ s.toLower = "0" ∨ s.toLower = "no" ∨
          s.toLower = "off")) ∧
      get_external_string render get source_id = some s) ∧
    (∀ b, get source_id = some (ExternalDataValue.boolean b) →
      get_external_number parse get source_id = none ∧
      get_external_boolean get source_id = some b ∧
      get_external_string render get source_id =
        some (if b then "true" else "false")) ∧
    (∀ items, get source_id = some (ExternalDataValue.array items) →
      get_external_number parse get source_id = none ∧
      get_external_boolean get source_id = none ∧
      get_external_string render get source_id = none) ∧
    (∀ fields, get source_id = some (ExternalDataValue.object fields) →
      get_external_number parse get source_id = none ∧
      get_external_boolean get source_id = none ∧
      get_external_string render get source_id = none) ∧
    (get source_id = some ExternalDataValue.null →
      get_external_number parse get source_id = none ∧
      get_external_boolean get source_id = none ∧
      get_external_string render get source_id = none) := by
  refine ⟨?_, ?_, ?_, ?_, ?_, ?_⟩
  · intro n h
    exact ⟨by simp [get_external_number, h],
      by simp [get_external_boolean, h],
      by simp [get_external_string, h]⟩
  · intro s h
    exact ⟨by simp [get_external_number, h],
      by simp [get_external_boolean, h],
      boolFromStr_true_iff s, boolFromStr_false_iff s,
      by simp [get_external_string, h]⟩
  · intro b h
    exact ⟨by simp [get_external_number, h],
      by simp [get_external_boolean, h],
      by simp [get_external_string, h, boolToString]⟩
  · intro items h
    exact ⟨by simp [get_external_number, h],
      by simp [get_external_boolean, h],
      by simp [get_external_string, h]⟩
  · intro fields h
    exact ⟨by simp [get_external_number, h],
      by simp [get_external_boolean, h],
      by simp [get_external_string, h]⟩
  · intro h
    exact ⟨by simp [get_external_number, h],
      by simp [get_external_boolean, h],
      by simp [get_external_string, h]⟩

theorem typed_accessor_coercion_witness :
    get_external_number (fun _ => none)
      (fun _ => some (ExternalDataValue.number 5)) "x" = some 5 ∧
    get_external_boolean (fun _ => some (ExternalDataValue.number 5)) "x" =
      some (decide ((5 : ℚ) ≠ 0)) ∧
    get_external_boolean (fun _ => some (ExternalDataValue.string "YES"))
      "x" = boolFromStr "YES" ∧
    get_external_string (fun _ => "5") (fun _ =>
      some (ExternalDataValue.boolean true)) "x" =
      some (if true then "true" else "false") ∧
    get_external_number (fun _ => none) (fun _ =>
      some ExternalDataValue.null) "x" = none :=
  ⟨((typed_accessor_coercion (fun _ => "5") (fun _ => none)
      (fun _ => some (ExternalDataValue.number 5)) "x").1 5 rfl).1,
   ((typed_accessor_coercion (fun _ => "5") (fun _ => none)
      (fun _ => some (ExternalDataValue.number 5)) "x").1 5 rfl).2.1,
   ((typed_accessor_coercion (fun _ => "5") (fun _ => none)
      (fun _ => some (ExternalDataValue.string "YES")) "x").2.1 "YES"
      rfl).2.1,
   ((typed_accessor_coercion (fun _ => "5") (fun _ => none)
      (fun _ => some (ExternalDataValue.boolean true)) "x").2.2.1 true
      rfl).2.2,
   ((typed_accessor_coercion (fun _ => "5") (fun _ => none)
      (fun _ => some ExternalDataValue.null) "x").2.2.2.2.2 rfl).1⟩
